import Mathlib

/-!
Verification of the LLM interactive client (`main.py`): provider clients
(`MistralAPIClient.call_api`, `GeminiAPIClient.call_api`), the model-catalog
fetchers (`fetch_mistral_models`, `fetch_gemini_models`), the cache
serialization (`save_*_models_to_cache` / `load_*_models_from_cache`), the
hardcoded fallback lists and `get_available_models`.

The embedding is shallow: JSON values are an inductive type, an HTTP request
is represented by its outcome (a status code with an optionally parseable
body, a timeout, or a transport error), and each Python function becomes a
total Lean function over those outcomes.  Python's blanket
`except Exception` handlers are reflected by `Option` results, so
"the function never raises" corresponds to totality of the Lean function.
-/

/-- JSON values as decoded by `json.load` / `response.json()`.  An `obj`
models a Python `dict`, so its keys are assumed distinct (a JSON text with
duplicate keys decodes to a dict holding only the last one). -/
inductive Json where
  | null : Json
  | bool : Bool → Json
  | num : Int → Json
  | str : String → Json
  | arr : List Json → Json
  | obj : List (String × Json) → Json

/-- Dictionary access `j[k]` / `k in j`: yields the value when `j` is an
object holding key `k`, and nothing otherwise (in Python, indexing a
non-dict with a string key, or a missing key, raises — every caller below
sits inside a `try`/`except` that turns the exception into `None`). -/
def Json.getField (j : Json) (k : String) : Option Json :=
  match j with
  | Json.obj fields => fields.lookup k
  | _ => none

/-- `isPre p l` : `p` is a prefix of `l` (character lists). -/
def isPre : List Char → List Char → Bool
  | [], _ => true
  | _ :: _, [] => false
  | a :: p, b :: l => a == b && isPre p l

/-- `hasSub l needle` : `needle` occurs as a contiguous substring of `l`;
this is Python's `needle in s` on strings. -/
def hasSub : List Char → List Char → Bool
  | [], needle => isPre needle []
  | l@(_ :: t), needle => isPre needle l || hasSub t needle

/-- Python `needle in hay` for strings. -/
def strContains (hay needle : String) : Bool :=
  hasSub hay.data needle.data

/-- Drop leading whitespace from a character list. -/
def dropLeadingWs : List Char → List Char
  | [] => []
  | c :: t => if c.isWhitespace then dropLeadingWs t else c :: t

/-- Python `str.strip()` with no argument: remove leading and trailing
whitespace (restricted to the ASCII whitespace that model prompts and API
text contain). -/
def pyStrip (s : String) : String :=
  ⟨((dropLeadingWs s.data).reverse |> dropLeadingWs).reverse⟩

/-- Outcome of one `requests.post` / `requests.get` call, seen from the
caller: a reply with a status code and (when the payload is valid JSON) a
decoded body, a timeout, or a transport-level error.  `response s none`
models a reply whose payload `response.json()` fails to parse;
`timeout` and `connError` both surface as
`requests.exceptions.RequestException`. -/
inductive PostOutcome where
  | response (status : Nat) (body : Option Json)
  | timeout
  | connError

/-- `response.raise_for_status()` raises exactly for 4xx and 5xx codes. -/
def raisesForStatus (s : Nat) : Bool :=
  decide (400 ≤ s) && decide (s < 600)

/-- The response parsing of `MistralAPIClient.call_api` (lines 99–105):
`result['choices'][0]['message']['content'].strip()` when `choices` is
present and non-empty; every failure (missing key, wrong shape, non-string
content) ends as `None`, either through the explicit `else` branch or
through the surrounding `except`. -/
def mistralExtract (j : Json) : Option String :=
  match j.getField "choices" with
  | some (Json.arr (c :: _)) =>
    match c.getField "message" with
    | some m =>
      match m.getField "content" with
      | some (Json.str content) => some (pyStrip content)
      | _ => none
    | none => none
  | _ => none

/-- The response parsing of `GeminiAPIClient.call_api` (lines 151–157):
`result['candidates'][0]['content']['parts'][0]['text'].strip()`. -/
def geminiExtract (j : Json) : Option String :=
  match j.getField "candidates" with
  | some (Json.arr (c :: _)) =>
    match c.getField "content" with
    | some ct =>
      match ct.getField "parts" with
      | some (Json.arr (p :: _)) =>
        match p.getField "text" with
        | some (Json.str t) => some (pyStrip t)
        | _ => none
      | _ => none
    | none => none
  | _ => none

/-- `LLMAPIClient._validate_prompt`: `not prompt or not prompt.strip()`
is equivalent to `prompt.strip() == ''`. -/
def validate_prompt (prompt : String) : Bool :=
  !(pyStrip prompt == "")

/-- `MistralAPIClient.call_api`, as a function of the prompt and of the
outcome of the one HTTP POST it may issue.  The second component counts the
HTTP calls made.  All exception paths (`raise_for_status`, JSON decoding,
response indexing) return `none`. -/
def mistral_call_api (prompt : String) (outcome : PostOutcome) :
    Option String × Nat :=
  if validate_prompt prompt then
    match outcome with
    | PostOutcome.timeout => (none, 1)
    | PostOutcome.connError => (none, 1)
    | PostOutcome.response s body =>
      if raisesForStatus s then (none, 1)
      else
        match body with
        | none => (none, 1)
        | some j => (mistralExtract j, 1)
  else (none, 0)

/-- `GeminiAPIClient.call_api`, same shape as `mistral_call_api` with the
generate-style response parsing. -/
def gemini_call_api (prompt : String) (outcome : PostOutcome) :
    Option String × Nat :=
  if validate_prompt prompt then
    match outcome with
    | PostOutcome.timeout => (none, 1)
    | PostOutcome.connError => (none, 1)
    | PostOutcome.response s body =>
      if raisesForStatus s then (none, 1)
      else
        match body with
        | none => (none, 1)
        | some j => (geminiExtract j, 1)
  else (none, 0)

example : strContains "mistral-embed-v2" "embed" = true := by decide
example : strContains "mistral-large" "embed" = false := by decide
example : mistral_call_api "  " PostOutcome.timeout = (none, 0) := by decide
example :
    mistral_call_api "hi"
      (PostOutcome.response 200 (some (Json.obj
        [("choices", Json.arr [Json.obj
          [("message", Json.obj [("content", Json.str " X ")])]])]))) =
      (some "X", 1) := by decide
example :
    gemini_call_api "hi"
      (PostOutcome.response 200 (some (Json.obj
        [("candidates", Json.arr [Json.obj
          [("content", Json.obj [("parts", Json.arr [Json.obj
            [("text", Json.str " Y ")]])])]])]))) =
      (some "Y", 1) := by decide

/-- Python character-list comparison `x <= y` (lexicographic on code
points; a proper prefix compares below). -/
def charsLe : List Char → List Char → Bool
  | [], _ => true
  | _ :: _, [] => false
  | a :: xs, b :: ys =>
    decide (a.toNat < b.toNat) || (a.toNat == b.toNat && charsLe xs ys)

/-- Python string comparison `x <= y`. -/
def pyStrLe (x y : String) : Bool :=
  charsLe x.data y.data

/-- Python `str.lower()` (the model identifiers involved are ASCII). -/
def pyLower (s : String) : String :=
  ⟨s.data.map Char.toLower⟩

theorem charsLe_total : ∀ x y : List Char, charsLe x y = true ∨ charsLe y x = true := by
  intro x
  induction x with
  | nil => intro y; left; rfl
  | cons a xs ih =>
    intro y
    cases y with
    | nil => right; rfl
    | cons b ys =>
      simp only [charsLe, Bool.or_eq_true, Bool.and_eq_true, decide_eq_true_eq, beq_iff_eq]
      rcases Nat.lt_trichotomy a.toNat b.toNat with hlt | heq | hgt
      · exact Or.inl (Or.inl hlt)
      · rcases ih ys with h | h
        · exact Or.inl (Or.inr ⟨heq, h⟩)
        · exact Or.inr (Or.inr ⟨heq.symm, h⟩)
      · exact Or.inr (Or.inl hgt)

theorem charsLe_trans : ∀ x y z : List Char,
    charsLe x y = true → charsLe y z = true → charsLe x z = true := by
  intro x
  induction x with
  | nil => intro y z _ _; rfl
  | cons a xs ih =>
    intro y z hxy hyz
    cases y with
    | nil => simp [charsLe] at hxy
    | cons b ys =>
      cases z with
      | nil => simp [charsLe] at hyz
      | cons c zs =>
        simp only [charsLe, Bool.or_eq_true, Bool.and_eq_true, decide_eq_true_eq,
          beq_iff_eq] at hxy hyz ⊢
        rcases hxy with h | ⟨h1, h2⟩ <;> rcases hyz with g | ⟨g1, g2⟩
        · omega
        · omega
        · omega
        · right; exact ⟨by omega, ih ys zs h2 g2⟩

/-- A catalog entry `(model_id, description)`. -/
abbrev ModelEntry := String × String

/-- A model catalog: a Python `dict` mapping a display index (a string) to
an entry, with its insertion order made explicit as a list. -/
abbrev Catalog := List (String × ModelEntry)

/-- The `sort_key` priority inside `fetch_mistral_models` (lines 258–265):
1 for identifiers containing `-latest`, else 2 for identifiers containing a
known family substring, else 0.  The membership tests are on the raw
identifier, case-sensitively, exactly as in the source. -/
def mistralPriority (id : String) : Nat :=
  if strContains id "-latest" then 1
  else if strContains id "mistral-small" || strContains id "mistral-medium"
      || strContains id "mistral-large" || strContains id "pixtral" then 2
  else 0

/-- `models_list.sort(key=sort_key, reverse=True)` places `a` before `b`
exactly when `sort_key(b) <= sort_key(a)` in Python's lexicographic tuple
order (ties keep the original order because the sort is stable). -/
def entryKeyGe (a b : ModelEntry) : Bool :=
  decide (mistralPriority b.1 < mistralPriority a.1)
    || (mistralPriority b.1 == mistralPriority a.1 && pyStrLe b.1 a.1)

/-- The ordering relation of the reversed Mistral sort, as a `Prop`. -/
def entryGe (a b : ModelEntry) : Prop :=
  entryKeyGe a b = true

instance : DecidableRel entryGe := fun a b =>
  inferInstanceAs (Decidable (entryKeyGe a b = true))

instance : IsTotal ModelEntry entryGe := by
  constructor
  intro a b
  unfold entryGe entryKeyGe
  simp only [Bool.or_eq_true, Bool.and_eq_true, decide_eq_true_eq, beq_iff_eq]
  rcases Nat.lt_trichotomy (mistralPriority a.1) (mistralPriority b.1) with hlt | heq | hgt
  · exact Or.inr (Or.inl hlt)
  · rcases charsLe_total a.1.data b.1.data with h | h
    · exact Or.inr (Or.inr ⟨heq, h⟩)
    · exact Or.inl (Or.inr ⟨heq.symm, h⟩)
  · exact Or.inl (Or.inl hgt)

instance : IsTrans ModelEntry entryGe := by
  constructor
  intro a b c hab hbc
  unfold entryGe entryKeyGe at hab hbc ⊢
  simp only [Bool.or_eq_true, Bool.and_eq_true, decide_eq_true_eq, beq_iff_eq] at hab hbc ⊢
  rcases hab with h | ⟨h1, h2⟩ <;> rcases hbc with g | ⟨g1, g2⟩
  · omega
  · omega
  · omega
  · exact Or.inr ⟨by omega, charsLe_trans _ _ _ g2 h2⟩

/-- Python's stable `list.sort(key=sort_key, reverse=True)`: a stable sort
placing `a` before `b` iff `sort_key(b) <= sort_key(a)`; insertion sort is
stable, so it computes the same list as CPython's (also stable) sort. -/
def pySortDesc (l : List ModelEntry) : List ModelEntry :=
  List.insertionSort entryGe l

/-- Description clean-up in `fetch_mistral_models` (lines 253–254):
`description[:77] + "..."` when longer than 80 characters. -/
def truncateDescription (d : String) : String :=
  if 80 < d.data.length then ⟨d.data.take 77⟩ ++ "..." else d

/-- The chat-model filter of `fetch_mistral_models` (line 250):
keep identifiers containing neither `embed` nor `cli`, case-insensitively. -/
def keepMistralModel (id : String) : Bool :=
  !(strContains (pyLower id) "embed") && !(strContains (pyLower id) "cli")

/-- `model.get('id', '')` followed by the `.lower()` membership tests:
succeeds with the identifier when the element is a dict whose `id` field
(defaulting to `""`) is a string; a non-dict element or a non-string `id`
raises inside the `try`, which ends in the fallback. -/
def mistralIdOfJson (m : Json) : Option String :=
  match m with
  | Json.obj _ =>
    match (m.getField "id").getD (Json.str "") with
    | Json.str id => some id
    | _ => none
  | _ => none

/-- `model.get('description', f'Modèle {model_id}')` followed by the
truncation.  A present-but-non-string description is modelled as the
exception path (the truncation's `len`/`+` raises on the values the API
could return there). -/
def mistralDescOfJson (m : Json) (id : String) : Option String :=
  match m.getField "description" with
  | some (Json.str d) => some (truncateDescription d)
  | some _ => none
  | none => some (truncateDescription ("Modèle " ++ id))

/-- The model-collection loop of `fetch_mistral_models` (lines 245–255):
walk `data['data']`, keep the entries passing `keepMistralModel`, attach
descriptions.  `none` models an exception escaping the loop. -/
def buildMistralList : List Json → Option (List ModelEntry)
  | [] => some []
  | m :: rest =>
    match mistralIdOfJson m with
    | none => none
    | some id =>
      match buildMistralList rest with
      | none => none
      | some tail =>
        if keepMistralModel id then
          match mistralDescOfJson m id with
          | none => none
          | some d => some ((id, d) :: tail)
        else some tail

/-- The identifiers read off a raw listing, in order, by
`model.get('id', '')`: the well-formedness skeleton of the listing used to
state what `buildMistralList` keeps. -/
def mistralIds : List Json → Option (List String)
  | [] => some []
  | m :: rest =>
    match mistralIdOfJson m with
    | none => none
    | some id =>
      match mistralIds rest with
      | none => none
      | some tail => some (id :: tail)

/-- `{str(idx): model for idx, model in enumerate(models_list, start=1)}`:
assign the sequential string keys `"1"`, `"2"`, … in list order. -/
def indexCatalog (l : List ModelEntry) : Catalog :=
  l.enum.map (fun p => (toString (p.1 + 1), p.2))

/-- `get_fallback_mistral_models` (lines 360–367). -/
def get_fallback_mistral_models : Catalog :=
  [("1", ("mistral-tiny", "Modèle rapide et économique")),
   ("2", ("mistral-small-latest", "Modèle équilibré, bonne qualité")),
   ("3", ("mistral-medium-latest", "Modèle haute performance")),
   ("4", ("mistral-large-latest", "Modèle le plus puissant"))]

/-- `get_fallback_gemini_models` (lines 447–453). -/
def get_fallback_gemini_models : Catalog :=
  [("1", ("gemini-2.5-flash", "Version flash optimisée et performante")),
   ("2", ("gemini-2.5-pro", "Modèle pro pour raisonnement avancé")),
   ("3", ("gemini-2.0-flash-exp", "Version expérimentale de Gemini 2.0 Flash"))]

/-- The fixed candidate list `known_models` of `fetch_gemini_models`
(lines 306–317). -/
def gemini_known_models : List ModelEntry :=
  [("gemini-2.5-flash", "Version flash optimisée et performante"),
   ("gemini-2.5-flash-001", "Version flash avec numéro de version explicite"),
   ("gemini-2.5-pro", "Modèle pro pour raisonnement avancé"),
   ("gemini-2.5-pro-001", "Version pro avec numéro de version explicite"),
   ("gemini-2.0-flash-exp", "Version expérimentale de Gemini 2.0 Flash"),
   ("gemini-1.5-pro", "Modèle 1.5 Pro"),
   ("gemini-1.5-pro-001", "Modèle 1.5 Pro avec numéro de version"),
   ("gemini-pro", "Modèle Gemini Pro classique"),
   ("gemini-1.5-flash", "Modèle 1.5 Flash"),
   ("gemini-1.5-flash-001", "Modèle 1.5 Flash avec numéro de version")]

/-- Outcome of one availability probe (`requests.post` with `timeout=5`)
in `fetch_gemini_models`: a reply with some status code, a
`requests.exceptions.Timeout`, or any other exception. -/
inductive ProbeOutcome where
  | status (code : Nat)
  | timeout
  | failure
deriving DecidableEq

/-- The probe classification of `fetch_gemini_models` (lines 322–342):
a candidate is kept on HTTP 200, 400 or 401, and on a timeout; every other
outcome drops it. -/
def probeIncluded : ProbeOutcome → Bool
  | ProbeOutcome.status c => c == 200 || c == 400 || c == 401
  | ProbeOutcome.timeout => true
  | ProbeOutcome.failure => false

/-- The probe loop: walk the candidates with their probe outcomes and keep
the included ones, in order. -/
def probeFilter : List (ModelEntry × ProbeOutcome) → List ModelEntry
  | [] => []
  | (m, o) :: rest =>
    if probeIncluded o then m :: probeFilter rest else probeFilter rest

/-- The serialization step shared by `save_mistral_models_to_cache` and
`save_gemini_models_to_cache` (lines 377–390 and 412–425): the catalog is
written as a JSON object mapping each key to the two-element array
`[model_id, description]`. -/
def catalogToJson (models : Catalog) : Json :=
  Json.obj (models.map (fun p => (p.1, Json.arr [Json.str p.2.1, Json.str p.2.2])))

/-- `save_mistral_models_to_cache`: the cache file's new content. -/
def save_mistral_models_to_cache (models : Catalog) : Json :=
  catalogToJson models

/-- `save_gemini_models_to_cache`: the cache file's new content. -/
def save_gemini_models_to_cache (models : Catalog) : Json :=
  catalogToJson models

/-- One cache value through `tuple(value)`.  The caches this program writes
always hold two-element string arrays; other shapes are treated as a load
failure (in Python, `tuple` of a non-iterable raises into the `except`). -/
def entryOfJson : Json → Option ModelEntry
  | Json.arr [Json.str a, Json.str b] => some (a, b)
  | _ => none

/-- The dict comprehension
`{key: tuple(value) for key, value in models_serializable.items()}`:
walk the decoded object's fields in order, converting each value; the
first failing conversion raises out of the comprehension. -/
def catalogEntriesOfJson : List (String × Json) → Option Catalog
  | [] => some []
  | p :: rest =>
    match entryOfJson p.2 with
    | none => none
    | some e =>
      match catalogEntriesOfJson rest with
      | none => none
      | some tail => some ((p.1, e) :: tail)

/-- The deserialization step shared by both cache loaders: `json.load`
must produce an object (`.items()` on anything else raises), and every
value goes through `entryOfJson`.  The `Option Json` argument is the cache
file: `none` when the file is absent or unreadable. -/
def catalogOfJson : Option Json → Option Catalog
  | none => none
  | some (Json.obj fields) => catalogEntriesOfJson fields
  | some _ => none

/-- `load_mistral_models_from_cache` (lines 427–445). -/
def load_mistral_models_from_cache (cacheFile : Option Json) : Option Catalog :=
  catalogOfJson cacheFile

/-- `load_gemini_models_from_cache` (lines 392–410). -/
def load_gemini_models_from_cache (cacheFile : Option Json) : Option Catalog :=
  catalogOfJson cacheFile

/-- Python truthiness of the loaded cache: `if cached_models:` passes only
for a present, parseable and non-empty mapping. -/
def truthyCatalog : Option Catalog → Option Catalog
  | some c => if c.isEmpty then none else some c
  | none => none

/-- Result of a catalog fetch: the returned catalog, what was written to
the provider's cache file (`none` = no write), and how many HTTP calls
were made. -/
structure FetchResult where
  models : Catalog
  cacheWrite : Option Catalog
  networkCalls : Nat
deriving DecidableEq

/-- The live-fetch part of `fetch_mistral_models` (lines 229–287): one GET
on the models-listing endpoint, then filter/sort/number, save to cache and
return; every exception and the missing-`data` shape fall back to
`get_fallback_mistral_models` without writing the cache.  An empty
collected list still goes through the save-and-return path. -/
def fetchMistralLive (outcome : PostOutcome) : FetchResult :=
  match outcome with
  | PostOutcome.timeout => ⟨get_fallback_mistral_models, none, 1⟩
  | PostOutcome.connError => ⟨get_fallback_mistral_models, none, 1⟩
  | PostOutcome.response s body =>
    if raisesForStatus s then ⟨get_fallback_mistral_models, none, 1⟩
    else
      match body with
      | none => ⟨get_fallback_mistral_models, none, 1⟩
      | some j =>
        match j.getField "data" with
        | some (Json.arr models) =>
          match buildMistralList models with
          | some lst =>
            let d := indexCatalog (pySortDesc lst)
            ⟨d, some d, 1⟩
          | none => ⟨get_fallback_mistral_models, none, 1⟩
        | _ => ⟨get_fallback_mistral_models, none, 1⟩

/-- `fetch_mistral_models` (lines 221–287): cache first unless
`force_refresh`, then the live fetch. -/
def fetch_mistral_models (cacheFile : Option Json) (forceRefresh : Bool)
    (outcome : PostOutcome) : FetchResult :=
  match (if forceRefresh then none
         else truthyCatalog (load_mistral_models_from_cache cacheFile)) with
  | some cached => ⟨cached, none, 0⟩
  | none => fetchMistralLive outcome

/-- The live-probe part of `fetch_gemini_models` (lines 297–358): probe
every candidate (one HTTP call each), keep the included ones in order;
a non-empty result is numbered, saved and returned, an empty one falls
back without writing the cache. -/
def fetchGeminiLive (outs : List ProbeOutcome) : FetchResult :=
  let avail := probeFilter (gemini_known_models.zip outs)
  if avail.isEmpty then
    ⟨get_fallback_gemini_models, none, gemini_known_models.length⟩
  else
    let d := indexCatalog avail
    ⟨d, some d, gemini_known_models.length⟩

/-- `fetch_gemini_models` (lines 289–358): cache first unless
`force_refresh`, then the live probes. -/
def fetch_gemini_models (cacheFile : Option Json) (forceRefresh : Bool)
    (outs : List ProbeOutcome) : FetchResult :=
  match (if forceRefresh then none
         else truthyCatalog (load_gemini_models_from_cache cacheFile)) with
  | some cached => ⟨cached, none, 0⟩
  | none => fetchGeminiLive outs

/-- Python truthiness of the optional API key (`if api_key:`). -/
def truthyStr : Option String → Bool
  | none => false
  | some s => !s.isEmpty

/-- `get_available_models` (lines 455–474): for each supported provider,
fetch when a truthy API key is given and substitute the hardcoded fallback
for an empty (falsy) result; with no key, return the fallback directly;
any other provider yields the empty mapping.  The cache write and call
count of the inner fetch are carried through so that its side effects stay
observable. -/
def get_available_models (provider : String) (apiKey : Option String)
    (forceRefresh : Bool) (mistralCache geminiCache : Option Json)
    (mistralOutcome : PostOutcome) (geminiOuts : List ProbeOutcome) : FetchResult :=
  if provider == "mistral" then
    if truthyStr apiKey then
      let r := fetch_mistral_models mistralCache forceRefresh mistralOutcome
      if r.models.isEmpty then ⟨get_fallback_mistral_models, r.cacheWrite, r.networkCalls⟩
      else r
    else ⟨get_fallback_mistral_models, none, 0⟩
  else if provider == "gemini" then
    if truthyStr apiKey then
      let r := fetch_gemini_models geminiCache forceRefresh geminiOuts
      if r.models.isEmpty then ⟨get_fallback_gemini_models, r.cacheWrite, r.networkCalls⟩
      else r
    else ⟨get_fallback_gemini_models, none, 0⟩
  else ⟨[], none, 0⟩

/-- Contiguity of a catalog's keys: exactly `"1"`, `"2"`, …, `"n"` in
insertion order. -/
def contiguousKeys (c : Catalog) : Prop :=
  c.map Prod.fst = (List.range c.length).map (fun i => toString (i + 1))

instance (c : Catalog) : Decidable (contiguousKeys c) :=
  inferInstanceAs (Decidable (_ = _))

/-! ### Helper lemmas -/

theorem indexCatalog_length (l : List ModelEntry) :
    (indexCatalog l).length = l.length := by
  simp [indexCatalog]

theorem indexCatalog_keys (l : List ModelEntry) : contiguousKeys (indexCatalog l) := by
  unfold contiguousKeys
  rw [indexCatalog_length]
  unfold indexCatalog
  rw [List.map_map, ← List.enum_map_fst l, List.map_map]
  rfl

theorem indexCatalog_values (l : List ModelEntry) :
    (indexCatalog l).map Prod.snd = l := by
  unfold indexCatalog
  rw [List.map_map]
  have : (Prod.snd ∘ fun p : Nat × ModelEntry => (toString (p.1 + 1), p.2)) = Prod.snd := by
    funext p; rfl
  rw [this, List.enum_map_snd]

theorem catalog_roundTrip (c : Catalog) :
    catalogOfJson (some (catalogToJson c)) = some c := by
  induction c with
  | nil => rfl
  | cons p rest ih =>
    obtain ⟨k, id, d⟩ := p
    simp only [catalogToJson, catalogOfJson, List.map_cons, catalogEntriesOfJson,
      entryOfJson] at *
    rw [ih]

theorem buildMistralList_map_fst : ∀ (ms : List Json) (lst : List ModelEntry)
    (ids : List String), buildMistralList ms = some lst →
    mistralIds ms = some ids →
    lst.map Prod.fst = ids.filter keepMistralModel := by
  intro ms
  induction ms with
  | nil =>
    intro lst ids h1 h2
    simp only [buildMistralList, Option.some.injEq] at h1
    simp only [mistralIds, Option.some.injEq] at h2
    subst h1; subst h2; rfl
  | cons m rest ih =>
    intro lst ids h1 h2
    simp only [buildMistralList] at h1
    simp only [mistralIds] at h2
    cases hid : mistralIdOfJson m with
    | none => rw [hid] at h1; exact absurd h1 (by simp)
    | some id =>
      rw [hid] at h1 h2
      cases htail : buildMistralList rest with
      | none => rw [htail] at h1; exact absurd h1 (by simp)
      | some tail =>
        rw [htail] at h1
        cases hids : mistralIds rest with
        | none => rw [hids] at h2; exact absurd h2 (by simp)
        | some restIds =>
          rw [hids] at h2
          simp only [Option.some.injEq] at h2
          subst h2
          have ihr := ih tail restIds htail hids
          dsimp only at h1
          by_cases hk : keepMistralModel id = true
          · rw [if_pos hk] at h1
            cases hd : mistralDescOfJson m id with
            | none => rw [hd] at h1; exact absurd h1 (by simp)
            | some d =>
              rw [hd] at h1
              simp only [Option.some.injEq] at h1
              subst h1
              simp [List.filter_cons, hk, ihr]
          · rw [if_neg hk] at h1
            simp only [Option.some.injEq] at h1
            subst h1
            simp only [Bool.not_eq_true] at hk
            simp [List.filter_cons, hk, ihr]

theorem probeFilter_sublist (l : List (ModelEntry × ProbeOutcome)) :
    List.Sublist (probeFilter l) (l.map Prod.fst) := by
  induction l with
  | nil => simp [probeFilter]
  | cons p rest ih =>
    obtain ⟨m, o⟩ := p
    simp only [probeFilter, List.map_cons]
    by_cases h : probeIncluded o = true
    · rw [if_pos h]; exact List.Sublist.cons₂ m ih
    · rw [if_neg h]; exact List.Sublist.cons m ih

theorem probeFilter_mem : ∀ (l : List (ModelEntry × ProbeOutcome)) (m : ModelEntry)
    (o : ProbeOutcome), (l.map Prod.fst).Nodup → (m, o) ∈ l →
    (m ∈ probeFilter l ↔ probeIncluded o = true) := by
  intro l
  induction l with
  | nil => intro m o _ hmem; exact absurd hmem (by simp)
  | cons p rest ih =>
    intro m o hnd hmem
    obtain ⟨m', o'⟩ := p
    simp only [List.map_cons, List.nodup_cons] at hnd
    rcases List.mem_cons.mp hmem with heq | htail
    · injection heq with hm ho
      subst hm; subst ho
      simp only [probeFilter]
      by_cases h : probeIncluded o = true
      · simp [h]
      · rw [if_neg h]
        constructor
        · intro hin
          exact absurd (List.Sublist.subset (probeFilter_sublist rest) hin) hnd.1
        · intro hinc
          exact absurd hinc h
    · have hne : m ≠ m' := by
        intro he; subst he
        exact hnd.1 (List.mem_map_of_mem Prod.fst htail)
      simp only [probeFilter]
      by_cases h : probeIncluded o' = true
      · rw [if_pos h]
        rw [List.mem_cons]
        rw [ih m o hnd.2 htail]
        constructor
        · rintro (he | hi)
          · exact absurd he hne
          · exact hi
        · intro hi; exact Or.inr hi
      · rw [if_neg h]
        exact ih m o hnd.2 htail

/-! ### Claims -/

/-- C1: for every non-empty, non-whitespace prompt, when the HTTP POST
succeeds (status outside the raising range) and the response body is
well-formed — chat-style `choices[0].message.content`, generate-style
`candidates[0].content.parts[0].text` — `call_api` returns exactly that
text field with surrounding whitespace stripped. -/
theorem c1_call_api_returns_trimmed_text (prompt : String)
    (hp : pyStrip prompt ≠ "") (s : Nat) (hs : s < 400) :
    (∀ (x : String) (fields mfields cfields : List (String × Json)) (restC : List Json),
        (Json.obj fields).getField "choices" =
            some (Json.arr (Json.obj mfields :: restC)) →
        (Json.obj mfields).getField "message" = some (Json.obj cfields) →
        (Json.obj cfields).getField "content" = some (Json.str x) →
        mistral_call_api prompt (PostOutcome.response s (some (Json.obj fields))) =
          (some (pyStrip x), 1))
    ∧ (∀ (x : String) (fields cfields ctfields pfields : List (String × Json))
        (restC restP : List Json),
        (Json.obj fields).getField "candidates" =
            some (Json.arr (Json.obj cfields :: restC)) →
        (Json.obj cfields).getField "content" = some (Json.obj ctfields) →
        (Json.obj ctfields).getField "parts" =
            some (Json.arr (Json.obj pfields :: restP)) →
        (Json.obj pfields).getField "text" = some (Json.str x) →
        gemini_call_api prompt (PostOutcome.response s (some (Json.obj fields))) =
          (some (pyStrip x), 1)) := by
  have hv : validate_prompt prompt = true := by
    unfold validate_prompt
    simpa using hp
  have hr : raisesForStatus s = false := by
    unfold raisesForStatus
    have : ¬(400 ≤ s) := by omega
    simp [this]
  constructor
  · intro x fields mfields cfields restC h1 h2 h3
    simp [mistral_call_api, hv, hr, mistralExtract, h1, h2, h3]
  · intro x fields cfields ctfields pfields restC restP h1 h2 h3 h4
    simp [gemini_call_api, hv, hr, geminiExtract, h1, h2, h3, h4]

theorem c1_witness :
    mistral_call_api "Hello" (PostOutcome.response 200 (some (Json.obj
      [("choices", Json.arr [Json.obj [("message",
        Json.obj [("content", Json.str "  Hi there  ")])]])]))) =
      (some "Hi there", 1)
    ∧ gemini_call_api "Hello" (PostOutcome.response 200 (some (Json.obj
      [("candidates", Json.arr [Json.obj [("content",
        Json.obj [("parts", Json.arr [Json.obj
          [("text", Json.str " Bonjour ")]])])]])]))) =
      (some "Bonjour", 1) :=
  ⟨Eq.trans
    ((c1_call_api_returns_trimmed_text "Hello" (by decide) 200 (by decide)).1
      "  Hi there  " _ _ _ [] rfl rfl rfl) (by decide),
   Eq.trans
    ((c1_call_api_returns_trimmed_text "Hello" (by decide) 200 (by decide)).2
      " Bonjour " _ _ _ _ [] [] rfl rfl rfl rfl) (by decide)⟩

/-- C2: an empty or all-whitespace prompt is rejected locally by either
provider client: no HTTP call is made (call count 0) and the absence value
is returned. -/
theorem c2_blank_prompt_no_call (prompt : String) (hp : pyStrip prompt = "")
    (o o' : PostOutcome) :
    mistral_call_api prompt o = (none, 0) ∧ gemini_call_api prompt o' = (none, 0) := by
  have hv : validate_prompt prompt = false := by
    unfold validate_prompt
    simp [hp]
  exact ⟨by simp [mistral_call_api, hv], by simp [gemini_call_api, hv]⟩

theorem c2_witness :
    mistral_call_api " \t " PostOutcome.timeout = (none, 0)
    ∧ gemini_call_api " \t " (PostOutcome.response 200 none) = (none, 0) :=
  c2_blank_prompt_no_call " \t " (by decide) PostOutcome.timeout
    (PostOutcome.response 200 none)

/-- C3: on every failing HTTP outcome — 4xx/5xx status, transport error,
timeout, unparseable body, empty `choices`/`candidates` array, or any body
the extractor cannot read — both `call_api` variants return the absence
value; no exception escapes (the Lean functions are total, every branch
below yields `none`). -/
theorem c3_failures_return_none (prompt : String) :
    (∀ (s : Nat) (body : Option Json), 400 ≤ s → s < 600 →
        (mistral_call_api prompt (PostOutcome.response s body)).1 = none
      ∧ (gemini_call_api prompt (PostOutcome.response s body)).1 = none)
    ∧ (∀ s : Nat, (mistral_call_api prompt (PostOutcome.response s none)).1 = none
      ∧ (gemini_call_api prompt (PostOutcome.response s none)).1 = none)
    ∧ (mistral_call_api prompt PostOutcome.timeout).1 = none
    ∧ (gemini_call_api prompt PostOutcome.timeout).1 = none
    ∧ (mistral_call_api prompt PostOutcome.connError).1 = none
    ∧ (gemini_call_api prompt PostOutcome.connError).1 = none
    ∧ (∀ (s : Nat) (fields : List (String × Json)),
        (Json.obj fields).getField "choices" = some (Json.arr []) →
        (mistral_call_api prompt
          (PostOutcome.response s (some (Json.obj fields)))).1 = none)
    ∧ (∀ (s : Nat) (fields : List (String × Json)),
        (Json.obj fields).getField "candidates" = some (Json.arr []) →
        (gemini_call_api prompt
          (PostOutcome.response s (some (Json.obj fields)))).1 = none)
    ∧ (∀ (s : Nat) (j : Json), mistralExtract j = none →
        (mistral_call_api prompt (PostOutcome.response s (some j))).1 = none)
    ∧ (∀ (s : Nat) (j : Json), geminiExtract j = none →
        (gemini_call_api prompt (PostOutcome.response s (some j))).1 = none) := by
  refine ⟨?_, ?_, ?_, ?_, ?_, ?_, ?_, ?_, ?_, ?_⟩
  · intro s body h1 h2
    have hr : raisesForStatus s = true := by
      unfold raisesForStatus
      rw [decide_eq_true h1, decide_eq_true h2]
      rfl
    cases hv : validate_prompt prompt <;>
      exact ⟨by simp [mistral_call_api, hv, hr], by simp [gemini_call_api, hv, hr]⟩
  · intro s
    cases hv : validate_prompt prompt <;> cases hr : raisesForStatus s <;>
      exact ⟨by simp [mistral_call_api, hv, hr], by simp [gemini_call_api, hv, hr]⟩
  · cases hv : validate_prompt prompt <;> simp [mistral_call_api, hv]
  · cases hv : validate_prompt prompt <;> simp [gemini_call_api, hv]
  · cases hv : validate_prompt prompt <;> simp [mistral_call_api, hv]
  · cases hv : validate_prompt prompt <;> simp [gemini_call_api, hv]
  · intro s fields h
    cases hv : validate_prompt prompt <;> cases hr : raisesForStatus s <;>
      simp [mistral_call_api, hv, hr, mistralExtract, h]
  · intro s fields h
    cases hv : validate_prompt prompt <;> cases hr : raisesForStatus s <;>
      simp [gemini_call_api, hv, hr, geminiExtract, h]
  · intro s j h
    cases hv : validate_prompt prompt <;> cases hr : raisesForStatus s <;>
      simp [mistral_call_api, hv, hr, h]
  · intro s j h
    cases hv : validate_prompt prompt <;> cases hr : raisesForStatus s <;>
      simp [gemini_call_api, hv, hr, h]

theorem c3_witness :
    (mistral_call_api "hi" (PostOutcome.response 503
      (some (Json.obj [("choices", Json.arr [Json.str "x"])])))).1 = none
    ∧ (mistral_call_api "hi" (PostOutcome.response 200
      (some (Json.obj [("choices", Json.arr [])])))).1 = none
    ∧ (gemini_call_api "hi" (PostOutcome.response 200
      (some (Json.obj [("candidates", Json.arr [])])))).1 = none
    ∧ (mistral_call_api "hi" (PostOutcome.response 200
      (some (Json.str "not an object")))).1 = none :=
  ⟨((c3_failures_return_none "hi").1 503 _ (by decide) (by decide)).1,
   (c3_failures_return_none "hi").2.2.2.2.2.2.1 200 _ rfl,
   (c3_failures_return_none "hi").2.2.2.2.2.2.2.1 200 _ rfl,
   (c3_failures_return_none "hi").2.2.2.2.2.2.2.2.1 200 _ (by decide)⟩

/-- C9: saving a catalog to a provider's cache file and loading it back
yields the identical mapping (the key-distinctness hypothesis records that
the saved value is a Python dict). -/
theorem c9_cache_round_trip (models : Catalog)
    (_hnd : (models.map Prod.fst).Nodup) :
    load_mistral_models_from_cache (some (save_mistral_models_to_cache models)) =
      some models
    ∧ load_gemini_models_from_cache (some (save_gemini_models_to_cache models)) =
      some models :=
  ⟨catalog_roundTrip models, catalog_roundTrip models⟩

theorem c9_witness :
    load_mistral_models_from_cache (some (save_mistral_models_to_cache
      [("1", ("mistral-tiny", "fast")), ("2", ("mistral-large-latest", "big"))])) =
      some [("1", ("mistral-tiny", "fast")), ("2", ("mistral-large-latest", "big"))]
    ∧ load_gemini_models_from_cache (some (save_gemini_models_to_cache
      [("1", ("mistral-tiny", "fast")), ("2", ("mistral-large-latest", "big"))])) =
      some [("1", ("mistral-tiny", "fast")), ("2", ("mistral-large-latest", "big"))] :=
  c9_cache_round_trip
    [("1", ("mistral-tiny", "fast")), ("2", ("mistral-large-latest", "big"))]
    (by decide)

/-- C4 fails as stated: an empty JSON object is a present and parseable
cache file (the loader returns the empty mapping), yet `fetch_mistral_models`
does not return it — the `if cached_models:` truthiness test treats it as a
miss, so a network call is made and (here, on a connection error) the
fallback is returned instead of the cached mapping. -/
theorem c4_counterexample :
    load_mistral_models_from_cache (some (Json.obj [])) = some []
    ∧ fetch_mistral_models (some (Json.obj [])) false PostOutcome.connError =
        ⟨get_fallback_mistral_models, none, 1⟩
    ∧ (fetch_mistral_models (some (Json.obj []))
        false PostOutcome.connError).networkCalls ≠ 0 := by
  decide

/-- C4 amended: if `force_refresh` is false and the provider's cache file
is present and parseable to a *non-empty* mapping, the fetch returns that
mapping immediately — no network call, no cache write.  (An empty parsed
cache is treated as a miss by the truthiness test.) -/
theorem c4_cache_hit_no_network (cacheFile : Option Json) (c : Catalog)
    (hne : c ≠ []) :
    (load_mistral_models_from_cache cacheFile = some c →
      ∀ outcome, fetch_mistral_models cacheFile false outcome = ⟨c, none, 0⟩)
    ∧ (load_gemini_models_from_cache cacheFile = some c →
      ∀ outs, fetch_gemini_models cacheFile false outs = ⟨c, none, 0⟩) := by
  have ht : truthyCatalog (some c) = some c := by
    cases c with
    | nil => exact absurd rfl hne
    | cons a l => rfl
  constructor
  · intro h outcome
    unfold fetch_mistral_models
    simp [h, ht]
  · intro h outs
    unfold fetch_gemini_models
    simp [h, ht]

theorem c4_witness :
    fetch_mistral_models
      (some (Json.obj [("1", Json.arr [Json.str "m", Json.str "d"])]))
      false PostOutcome.connError = ⟨[("1", ("m", "d"))], none, 0⟩
    ∧ fetch_gemini_models
      (some (Json.obj [("1", Json.arr [Json.str "g", Json.str "e"])]))
      false [] = ⟨[("1", ("g", "e"))], none, 0⟩ :=
  ⟨(c4_cache_hit_no_network
      (some (Json.obj [("1", Json.arr [Json.str "m", Json.str "d"])]))
      [("1", ("m", "d"))] (by decide)).1 (by decide) PostOutcome.connError,
   (c4_cache_hit_no_network
      (some (Json.obj [("1", Json.arr [Json.str "g", Json.str "e"])]))
      [("1", ("g", "e"))] (by decide)).2 (by decide) []⟩

/-- C5 fails as stated: a live Mistral fetch whose listing is an *empty*
`data` array does not fall back — the empty catalog is numbered, *saved to
the cache file* and returned by `fetch_mistral_models`; `get_available_models`
then substitutes the fallback, but the cache write has already happened. -/
theorem c5_counterexample :
    fetch_mistral_models none false
        (PostOutcome.response 200 (some (Json.obj [("data", Json.arr [])]))) =
      ⟨[], some [], 1⟩
    ∧ (get_available_models "mistral" (some "key") false none none
        (PostOutcome.response 200 (some (Json.obj [("data", Json.arr [])])))
        []).cacheWrite = some [] := by
  decide

/-- C5 amended: on a live-fetch *error* (timeout, transport error, 4xx/5xx
status, unparseable body, missing `data` field, malformed listing entry)
the Mistral fetch returns the hardcoded fallback and writes nothing; a
Gemini probe round whose included set is empty likewise returns the
fallback and writes nothing; but a Mistral listing that yields an empty
collected list is saved to the cache and returned empty (the fallback then
only appears at the `get_available_models` level, per the counterexample). -/
theorem c5_fallback_on_live_failure :
    fetchMistralLive PostOutcome.timeout = ⟨get_fallback_mistral_models, none, 1⟩
    ∧ fetchMistralLive PostOutcome.connError = ⟨get_fallback_mistral_models, none, 1⟩
    ∧ (∀ s : Nat, fetchMistralLive (PostOutcome.response s none) =
        ⟨get_fallback_mistral_models, none, 1⟩)
    ∧ (∀ (s : Nat) (body : Option Json), 400 ≤ s → s < 600 →
        fetchMistralLive (PostOutcome.response s body) =
          ⟨get_fallback_mistral_models, none, 1⟩)
    ∧ (∀ (s : Nat) (j : Json), j.getField "data" = none →
        fetchMistralLive (PostOutcome.response s (some j)) =
          ⟨get_fallback_mistral_models, none, 1⟩)
    ∧ (∀ (s : Nat) (j v : Json), j.getField "data" = some v →
        (∀ ms : List Json, v ≠ Json.arr ms) →
        fetchMistralLive (PostOutcome.response s (some j)) =
          ⟨get_fallback_mistral_models, none, 1⟩)
    ∧ (∀ (s : Nat) (j : Json) (ms : List Json), raisesForStatus s = false →
        j.getField "data" = some (Json.arr ms) → buildMistralList ms = none →
        fetchMistralLive (PostOutcome.response s (some j)) =
          ⟨get_fallback_mistral_models, none, 1⟩)
    ∧ (∀ outs : List ProbeOutcome, probeFilter (gemini_known_models.zip outs) = [] →
        fetchGeminiLive outs =
          ⟨get_fallback_gemini_models, none, gemini_known_models.length⟩)
    ∧ (∀ (s : Nat) (j : Json) (ms : List Json), raisesForStatus s = false →
        j.getField "data" = some (Json.arr ms) → buildMistralList ms = some [] →
        fetchMistralLive (PostOutcome.response s (some j)) = ⟨[], some [], 1⟩) := by
  refine ⟨rfl, rfl, ?_, ?_, ?_, ?_, ?_, ?_, ?_⟩
  · intro s
    cases hr : raisesForStatus s <;> simp [fetchMistralLive, hr]
  · intro s body h1 h2
    have hr : raisesForStatus s = true := by
      unfold raisesForStatus
      rw [decide_eq_true h1, decide_eq_true h2]
      rfl
    cases body <;> simp [fetchMistralLive, hr]
  · intro s j h
    cases hr : raisesForStatus s <;> simp [fetchMistralLive, hr, h]
  · intro s j v hd hne
    cases v with
    | arr ms => exact absurd rfl (hne ms)
    | null => cases hr : raisesForStatus s <;> simp [fetchMistralLive, hr, hd]
    | bool b => cases hr : raisesForStatus s <;> simp [fetchMistralLive, hr, hd]
    | num n => cases hr : raisesForStatus s <;> simp [fetchMistralLive, hr, hd]
    | str t => cases hr : raisesForStatus s <;> simp [fetchMistralLive, hr, hd]
    | obj fs => cases hr : raisesForStatus s <;> simp [fetchMistralLive, hr, hd]
  · intro s j ms hr hd hb
    simp [fetchMistralLive, hr, hd, hb]
  · intro outs h
    simp [fetchGeminiLive, h]
  · intro s j ms hr hd hb
    simp [fetchMistralLive, hr, hd, hb, indexCatalog, pySortDesc]

theorem c5_witness :
    fetchMistralLive (PostOutcome.response 503 (some (Json.obj []))) =
      ⟨get_fallback_mistral_models, none, 1⟩
    ∧ fetchMistralLive (PostOutcome.response 200 (some (Json.str "oops"))) =
      ⟨get_fallback_mistral_models, none, 1⟩
    ∧ fetchMistralLive (PostOutcome.response 200
        (some (Json.obj [("data", Json.num 5)]))) =
      ⟨get_fallback_mistral_models, none, 1⟩
    ∧ fetchGeminiLive [ProbeOutcome.status 404, ProbeOutcome.failure] =
      ⟨get_fallback_gemini_models, none, gemini_known_models.length⟩
    ∧ fetchMistralLive (PostOutcome.response 200
        (some (Json.obj [("data", Json.arr [])]))) = ⟨[], some [], 1⟩ :=
  ⟨c5_fallback_on_live_failure.2.2.2.1 503 (some (Json.obj [])) (by decide) (by decide),
   c5_fallback_on_live_failure.2.2.2.2.1 200 (Json.str "oops") rfl,
   c5_fallback_on_live_failure.2.2.2.2.2.1 200 (Json.obj [("data", Json.num 5)])
     (Json.num 5) rfl (fun ms h => Json.noConfusion h),
   c5_fallback_on_live_failure.2.2.2.2.2.2.2.1
     [ProbeOutcome.status 404, ProbeOutcome.failure] (by decide),
   c5_fallback_on_live_failure.2.2.2.2.2.2.2.2 200 (Json.obj [("data", Json.arr [])])
     [] (by decide) rfl rfl⟩

/-- C6: for every well-formed listing, the live Mistral catalog holds
exactly the entries whose identifier contains neither `embed` nor `cli`
(case-insensitively) — stated as a permutation with the filtered identifier
list — and its entries are ordered descending in the lexicographic key
(priority, identifier), `entryGe`, i.e. numerically highest priority first
and, within equal priority, identifiers in descending order (the reverse
stable sort of the source). -/
theorem c6_mistral_filter_and_sort (models : List Json) (ids : List String)
    (lst : List ModelEntry) (hids : mistralIds models = some ids)
    (hlst : buildMistralList models = some lst) :
    ((fetchMistralLive (PostOutcome.response 200 (some (Json.obj
        [("data", Json.arr models)])))).models.map (fun p => p.2.1)).Perm
      (ids.filter (fun id => !(strContains (pyLower id) "embed")
        && !(strContains (pyLower id) "cli")))
    ∧ List.Sorted entryGe
        ((fetchMistralLive (PostOutcome.response 200 (some (Json.obj
          [("data", Json.arr models)])))).models.map Prod.snd) := by
  have hcat : (fetchMistralLive (PostOutcome.response 200 (some (Json.obj
      [("data", Json.arr models)])))).models = indexCatalog (pySortDesc lst) := by
    simp [fetchMistralLive, raisesForStatus, Json.getField, hlst]
  have hvals : (fetchMistralLive (PostOutcome.response 200 (some (Json.obj
      [("data", Json.arr models)])))).models.map Prod.snd = pySortDesc lst := by
    rw [hcat, indexCatalog_values]
  constructor
  · have h1 : ((fetchMistralLive (PostOutcome.response 200 (some (Json.obj
        [("data", Json.arr models)])))).models.map (fun p => p.2.1)) =
        (pySortDesc lst).map Prod.fst := by
      rw [hcat, indexCatalog]
      rw [List.map_map]
      have h2 : ((pySortDesc lst).enum.map Prod.snd).map Prod.fst =
          (pySortDesc lst).map Prod.fst := by rw [List.enum_map_snd]
      rw [← h2, List.map_map]
      rfl
    rw [h1]
    have hperm : (pySortDesc lst).Perm lst := List.perm_insertionSort entryGe lst
    have := hperm.map Prod.fst
    rw [buildMistralList_map_fst models lst ids hlst hids] at this
    exact this
  · rw [hvals]
    exact List.sorted_insertionSort entryGe lst

theorem c6_witness :
    ((fetchMistralLive (PostOutcome.response 200 (some (Json.obj [("data", Json.arr
      [Json.obj [("id", Json.str "mistral-embed")],
       Json.obj [("id", Json.str "codestral-2405"), ("description", Json.str "code")],
       Json.obj [("id", Json.str "mistral-large-latest")],
       Json.obj [("id", Json.str "Mistral-CLI-helper")],
       Json.obj [("id", Json.str "pixtral-12b")]])])))).models.map
        (fun p => p.2.1)).Perm
      (["mistral-embed", "codestral-2405", "mistral-large-latest",
        "Mistral-CLI-helper", "pixtral-12b"].filter
        (fun id => !(strContains (pyLower id) "embed")
          && !(strContains (pyLower id) "cli")))
    ∧ List.Sorted entryGe
        ((fetchMistralLive (PostOutcome.response 200 (some (Json.obj [("data", Json.arr
          [Json.obj [("id", Json.str "mistral-embed")],
           Json.obj [("id", Json.str "codestral-2405"), ("description", Json.str "code")],
           Json.obj [("id", Json.str "mistral-large-latest")],
           Json.obj [("id", Json.str "Mistral-CLI-helper")],
           Json.obj [("id", Json.str "pixtral-12b")]])])))).models.map Prod.snd) :=
  c6_mistral_filter_and_sort
    [Json.obj [("id", Json.str "mistral-embed")],
     Json.obj [("id", Json.str "codestral-2405"), ("description", Json.str "code")],
     Json.obj [("id", Json.str "mistral-large-latest")],
     Json.obj [("id", Json.str "Mistral-CLI-helper")],
     Json.obj [("id", Json.str "pixtral-12b")]]
    ["mistral-embed", "codestral-2405", "mistral-large-latest",
     "Mistral-CLI-helper", "pixtral-12b"]
    [("codestral-2405", "code"),
     ("mistral-large-latest", "Modèle mistral-large-latest"),
     ("pixtral-12b", "Modèle pixtral-12b")]
    (by decide) (by decide)

/-- C7: with one probe outcome per candidate, a candidate of the fixed
Gemini list enters the probe-built list iff its probe returned HTTP 200,
400 or 401 or timed out; the built list is a sublist of the fixed list
(relative order preserved); and when non-empty it is exactly the entry
list of the live catalog. -/
theorem c7_gemini_probe_classification (outs : List ProbeOutcome)
    (hlen : outs.length = gemini_known_models.length) :
    List.Sublist (probeFilter (gemini_known_models.zip outs)) gemini_known_models
    ∧ (∀ (m : ModelEntry) (o : ProbeOutcome), (m, o) ∈ gemini_known_models.zip outs →
        (m ∈ probeFilter (gemini_known_models.zip outs) ↔ probeIncluded o = true))
    ∧ (probeFilter (gemini_known_models.zip outs) ≠ [] →
        (fetchGeminiLive outs).models.map Prod.snd =
          probeFilter (gemini_known_models.zip outs)) := by
  have hfst : (gemini_known_models.zip outs).map Prod.fst = gemini_known_models :=
    List.map_fst_zip gemini_known_models outs (le_of_eq hlen.symm)
  refine ⟨?_, ?_, ?_⟩
  · have := probeFilter_sublist (gemini_known_models.zip outs)
    rwa [hfst] at this
  · intro m o hmem
    apply probeFilter_mem
    · rw [hfst]
      decide
    · exact hmem
  · intro hne
    have hemp : (probeFilter (gemini_known_models.zip outs)).isEmpty = false := by
      cases h : probeFilter (gemini_known_models.zip outs) with
      | nil => exact absurd h hne
      | cons a l => rfl
    simp [fetchGeminiLive, hemp, indexCatalog_values]

theorem c7_witness :
    List.Sublist (probeFilter (gemini_known_models.zip
      [ProbeOutcome.status 200, ProbeOutcome.status 404, ProbeOutcome.status 401,
       ProbeOutcome.timeout, ProbeOutcome.failure, ProbeOutcome.status 400,
       ProbeOutcome.status 500, ProbeOutcome.status 200, ProbeOutcome.status 403,
       ProbeOutcome.status 200])) gemini_known_models
    ∧ (("gemini-2.5-flash-001", "Version flash avec numéro de version explicite")
        ∈ probeFilter (gemini_known_models.zip
      [ProbeOutcome.status 200, ProbeOutcome.status 404, ProbeOutcome.status 401,
       ProbeOutcome.timeout, ProbeOutcome.failure, ProbeOutcome.status 400,
       ProbeOutcome.status 500, ProbeOutcome.status 200, ProbeOutcome.status 403,
       ProbeOutcome.status 200]) ↔ probeIncluded (ProbeOutcome.status 404) = true) :=
  ⟨(c7_gemini_probe_classification _ (by decide)).1,
   (c7_gemini_probe_classification _ (by decide)).2.1
     ("gemini-2.5-flash-001", "Version flash avec numéro de version explicite")
     (ProbeOutcome.status 404) (by decide)⟩

theorem truthyCatalog_eq_some {o : Option Catalog} {c : Catalog}
    (h : truthyCatalog o = some c) : o = some c := by
  cases o with
  | none => exact absurd h (by simp [truthyCatalog])
  | some d =>
    unfold truthyCatalog at h
    dsimp only at h
    by_cases hd : d.isEmpty
    · rw [if_pos hd] at h
      exact absurd h (by simp)
    · rw [if_neg hd] at h
      exact h

theorem fetchMistralLive_keys (outcome : PostOutcome) :
    contiguousKeys (fetchMistralLive outcome).models
    ∧ ∀ w, (fetchMistralLive outcome).cacheWrite = some w → contiguousKeys w := by
  have hfb : contiguousKeys get_fallback_mistral_models := by decide
  unfold fetchMistralLive
  split
  · exact ⟨hfb, fun w h => absurd h (by simp)⟩
  · exact ⟨hfb, fun w h => absurd h (by simp)⟩
  · split_ifs with hr
    · exact ⟨hfb, fun w h => absurd h (by simp)⟩
    · split
      · exact ⟨hfb, fun w h => absurd h (by simp)⟩
      · split
        · split
          · refine ⟨indexCatalog_keys _, ?_⟩
            intro w h
            simp only [Option.some.injEq] at h
            exact h ▸ indexCatalog_keys _
          · exact ⟨hfb, fun w h => absurd h (by simp)⟩
        · exact ⟨hfb, fun w h => absurd h (by simp)⟩

theorem fetchGeminiLive_keys (outs : List ProbeOutcome) :
    contiguousKeys (fetchGeminiLive outs).models
    ∧ ∀ w, (fetchGeminiLive outs).cacheWrite = some w → contiguousKeys w := by
  have hfb : contiguousKeys get_fallback_gemini_models := by decide
  unfold fetchGeminiLive
  dsimp only
  split_ifs with he
  · exact ⟨hfb, fun w h => absurd h (by simp)⟩
  · refine ⟨indexCatalog_keys _, ?_⟩
    intro w h
    simp only [Option.some.injEq] at h
    exact h ▸ indexCatalog_keys _

theorem fetch_mistral_models_keys (cacheFile : Option Json) (fr : Bool)
    (outcome : PostOutcome)
    (hload : ∀ c, load_mistral_models_from_cache cacheFile = some c → contiguousKeys c) :
    contiguousKeys (fetch_mistral_models cacheFile fr outcome).models
    ∧ ∀ w, (fetch_mistral_models cacheFile fr outcome).cacheWrite = some w →
        contiguousKeys w := by
  unfold fetch_mistral_models
  split
  · rename_i cached heq
    have htc : truthyCatalog (load_mistral_models_from_cache cacheFile) = some cached := by
      cases fr with
      | true => exact absurd heq (by simp)
      | false => exact heq
    exact ⟨hload cached (truthyCatalog_eq_some htc), fun w h => absurd h (by simp)⟩
  · exact fetchMistralLive_keys outcome

theorem fetch_gemini_models_keys (cacheFile : Option Json) (fr : Bool)
    (outs : List ProbeOutcome)
    (hload : ∀ c, load_gemini_models_from_cache cacheFile = some c → contiguousKeys c) :
    contiguousKeys (fetch_gemini_models cacheFile fr outs).models
    ∧ ∀ w, (fetch_gemini_models cacheFile fr outs).cacheWrite = some w →
        contiguousKeys w := by
  unfold fetch_gemini_models
  split
  · rename_i cached heq
    have htc : truthyCatalog (load_gemini_models_from_cache cacheFile) = some cached := by
      cases fr with
      | true => exact absurd heq (by simp)
      | false => exact heq
    exact ⟨hload cached (truthyCatalog_eq_some htc), fun w h => absurd h (by simp)⟩
  · exact fetchGeminiLive_keys outs

/-- C8 fails as stated: the cache loaders do not re-validate keys, so a
parseable cache file whose keys are not contiguous (here, a single entry
keyed `"2"`) flows through `fetch_mistral_models` and `get_available_models`
unchanged, and the returned catalog's keys are `["2"]`, not `["1"]`. -/
theorem c8_counterexample :
    (get_available_models "mistral" (some "k") false
        (some (Json.obj [("2", Json.arr [Json.str "m", Json.str "d"])])) none
        PostOutcome.connError []).models = [("2", ("m", "d"))]
    ∧ ¬contiguousKeys (get_available_models "mistral" (some "k") false
        (some (Json.obj [("2", Json.arr [Json.str "m", Json.str "d"])])) none
        PostOutcome.connError []).models := by
  constructor
  · decide
  · decide

/-- C8 amended: every catalog produced by `get_available_models` has the
contiguous keys `"1"`, …, `"n"` in numeric order, *provided* the cache
file's parsed content (when it parses at all) itself has contiguous keys —
which holds for every cache this program writes, since every cache write is
itself an `indexCatalog` image (second conjunct); the loader simply performs
no re-validation, so a hand-edited cache file escapes the invariant (see
the counterexample). -/
theorem c8_contiguous_numbering (provider : String) (apiKey : Option String)
    (fr : Bool) (mc gc : Option Json) (outcome : PostOutcome)
    (outs : List ProbeOutcome)
    (hmc : ∀ c, load_mistral_models_from_cache mc = some c → contiguousKeys c)
    (hgc : ∀ c, load_gemini_models_from_cache gc = some c → contiguousKeys c) :
    contiguousKeys (get_available_models provider apiKey fr mc gc outcome outs).models
    ∧ ∀ w, (get_available_models provider apiKey fr mc gc outcome outs).cacheWrite =
        some w → contiguousKeys w := by
  have hfm : contiguousKeys get_fallback_mistral_models := by decide
  have hfg : contiguousKeys get_fallback_gemini_models := by decide
  unfold get_available_models
  split_ifs with h1 h2 h3 h4
  · dsimp only
    split_ifs with he
    · exact ⟨hfm, (fetch_mistral_models_keys mc fr outcome hmc).2⟩
    · exact fetch_mistral_models_keys mc fr outcome hmc
  · exact ⟨hfm, fun w h => absurd h (by simp)⟩
  · dsimp only
    split_ifs with he
    · exact ⟨hfg, (fetch_gemini_models_keys gc fr outs hgc).2⟩
    · exact fetch_gemini_models_keys gc fr outs hgc
  · exact ⟨hfg, fun w h => absurd h (by simp)⟩
  · exact ⟨by decide, fun w h => absurd h (by simp)⟩

theorem c8_witness :
    contiguousKeys (get_available_models "mistral" (some "k") false none none
      (PostOutcome.response 200 (some (Json.obj [("data", Json.arr
        [Json.obj [("id", Json.str "mistral-large-latest")]])])))
      []).models
    ∧ ∀ w, (get_available_models "mistral" (some "k") false none none
      (PostOutcome.response 200 (some (Json.obj [("data", Json.arr
        [Json.obj [("id", Json.str "mistral-large-latest")]])])))
      []).cacheWrite = some w → contiguousKeys w :=
  c8_contiguous_numbering "mistral" (some "k") false none none
    (PostOutcome.response 200 (some (Json.obj [("data", Json.arr
      [Json.obj [("id", Json.str "mistral-large-latest")]])])))
    [] (fun c h => absurd h (by simp [load_mistral_models_from_cache, catalogOfJson]))
    (fun c h => absurd h (by simp [load_gemini_models_from_cache, catalogOfJson]))

/-- C10: for the two supported providers `get_available_models` always
returns a non-empty catalog — every failing fetch path ends in the
non-empty hardcoded fallback — so the selection menu's maximum over the
numeric keys ranges over a non-empty set; any other provider string yields
the empty mapping. -/
theorem c10_supported_providers_nonempty (provider : String)
    (apiKey : Option String) (fr : Bool) (mc gc : Option Json)
    (outcome : PostOutcome) (outs : List ProbeOutcome) :
    ((provider = "mistral" ∨ provider = "gemini") →
      (get_available_models provider apiKey fr mc gc outcome outs).models ≠ [])
    ∧ (provider ≠ "mistral" → provider ≠ "gemini" →
      (get_available_models provider apiKey fr mc gc outcome outs).models = []) := by
  constructor
  · intro hp
    unfold get_available_models
    rcases hp with h | h <;> subst h
    · simp only [beq_self_eq_true, if_true]
      split_ifs with ht he
      · exact (by decide : get_fallback_mistral_models ≠ [])
      · intro hnil
        rw [hnil] at he
        exact he rfl
      · exact (by decide : get_fallback_mistral_models ≠ [])
    · have hb : ("gemini" == "mistral") = false := by decide
      simp only [hb, Bool.false_eq_true, if_false, beq_self_eq_true, if_true]
      split_ifs with ht he
      · exact (by decide : get_fallback_gemini_models ≠ [])
      · intro hnil
        rw [hnil] at he
        exact he rfl
      · exact (by decide : get_fallback_gemini_models ≠ [])
  · intro h1 h2
    unfold get_available_models
    have b1 : (provider == "mistral") = false := by
      simp only [beq_eq_false_iff_ne, ne_eq]
      exact h1
    have b2 : (provider == "gemini") = false := by
      simp only [beq_eq_false_iff_ne, ne_eq]
      exact h2
    simp only [b1, b2, Bool.false_eq_true, if_false]

theorem c10_witness :
    (get_available_models "mistral" none false none none
      PostOutcome.connError []).models ≠ []
    ∧ (get_available_models "gemini" (some "k") true none none
      PostOutcome.connError (List.replicate 10 ProbeOutcome.failure)).models ≠ []
    ∧ (get_available_models "openai" (some "k") false none none
      PostOutcome.connError []).models = [] :=
  ⟨(c10_supported_providers_nonempty "mistral" none false none none
      PostOutcome.connError []).1 (Or.inl rfl),
   (c10_supported_providers_nonempty "gemini" (some "k") true none none
      PostOutcome.connError (List.replicate 10 ProbeOutcome.failure)).1 (Or.inr rfl),
   (c10_supported_providers_nonempty "openai" (some "k") false none none
      PostOutcome.connError []).2 (by decide) (by decide)⟩
